import Mathlib

/-!
Verification of the `tracktor` package-tracking client (`src/base.py`).

The development shallowly embeds the Python module: exceptions become an
inductive type, HTTP responses a structure, the `ResponseHandler.handler`
decorator a total function from the outcome of the wrapped call to the pair
(returned value, emitted warning lines), Python dicts become insertion-ordered
association lists, and the `xml.etree.ElementTree` construction and
serialization are modelled on a tree type.  The HTTP transport itself is out
of scope (per the spec): `_make_request` is modelled as producing the list of
HTTP requests it issues together with the updated instance state, and the
network's answer to a request is an arbitrary `Except PyExc Response` value.
-/

/-- Python exceptions as far as this module distinguishes them:
`requests.exceptions.HTTPError` (caught by the first `except` clause of
`ResponseHandler.handler`) versus every other `Exception` (caught by the
second clause).  The payload is the exception's string form `f'{exc}'`. -/
inductive PyExc where
  | httpError (msg : String)
  | other (msg : String)
deriving DecidableEq

/-- A `requests` HTTP response as far as this module inspects it: the status
code drives `raise_for_status`, `reason` and `url` appear in the `HTTPError`
message, and `body` stands for the payload handed back to the caller. -/
structure Response where
  status_code : Nat
  reason : String
  url : String
  body : String
deriving DecidableEq

/-- `requests.models.Response.raise_for_status` (external collaborator,
modelled from the `requests` library): raises `HTTPError` with a
`Client Error` message for status 400..499, a `Server Error` message for
500..599, and returns normally otherwise. -/
def Response.raise_for_status (r : Response) : Except PyExc Unit :=
  if 400 ≤ r.status_code ∧ r.status_code < 500 then
    .error (.httpError
      (toString r.status_code ++ " Client Error: " ++ r.reason ++ " for url: " ++ r.url))
  else if 500 ≤ r.status_code ∧ r.status_code < 600 then
    .error (.httpError
      (toString r.status_code ++ " Server Error: " ++ r.reason ++ " for url: " ++ r.url))
  else
    .ok ()

/-- The warning line emitted by `ResponseHandler.handler`'s `except` clauses:
`f'{http_error} - Issue with request'` for an `HTTPError`, and
`f'{exc} - issue in program'` for any other exception (`src/base.py` 22-25). -/
def warnLine (e : PyExc) : String :=
  match e with
  | .httpError m => m ++ " - Issue with request"
  | .other m => m ++ " - issue in program"

/-- `ResponseHandler.handler` (`src/base.py` 16-28): run the wrapped call,
then `response.raise_for_status()`; on `HTTPError` log one warning ending in
`- Issue with request`, on any other exception log one warning ending in
`- issue in program`, and only in the no-exception case return the response.
The argument is the outcome of `func(*args, **kwargs)` (a response, or the
exception it raised); the result is the wrapper's return value paired with
the list of warning lines it logs. -/
def ResponseHandler.handler (outcome : Except PyExc Response) :
    Option Response × List String :=
  match outcome with
  | .error e => (none, [warnLine e])
  | .ok response =>
    match response.raise_for_status with
    | .error e => (none, [warnLine e])
    | .ok _ => (some response, [])

/-- `Tracktor.track` (`src/base.py` 43-51): the body is exactly
`return self._make_request(*args, **kwargs)` wrapped by
`ResponseHandler.handler`; the argument is the outcome of that call. -/
def Tracktor.track (outcome : Except PyExc Response) :
    Option Response × List String :=
  ResponseHandler.handler outcome

/-- C1: whenever the wrapped `_make_request` raises (outcome is an error) or
the response's `raise_for_status` check raises, `track` returns no value and
emits exactly one warning line.  No exception propagates to the caller:
`Tracktor.track` is a total function into `Option Response × List String`,
with no error component in its result type. -/
theorem C1_track_absorbs_failures (o : Except PyExc Response)
    (h : (∃ e, o = .error e) ∨ ∃ r e, o = .ok r ∧ r.raise_for_status = .error e) :
    (Tracktor.track o).1 = none ∧ (Tracktor.track o).2.length = 1 := by
  rcases h with ⟨e, rfl⟩ | ⟨r, e, rfl, hr⟩
  · exact ⟨rfl, rfl⟩
  · simp [Tracktor.track, ResponseHandler.handler, hr]

/-- Witness for C1 at a concrete failing outcome (a raised non-HTTP
exception). -/
theorem C1_track_absorbs_failures_witness :
    (Tracktor.track (.error (.other "ConnectionError: refused"))).1 = none ∧
      (Tracktor.track (.error (.other "ConnectionError: refused"))).2.length = 1 :=
  C1_track_absorbs_failures (.error (.other "ConnectionError: refused"))
    (Or.inl ⟨_, rfl⟩)

/-- C2: when `_make_request` returns a response and `raise_for_status` raises
nothing, `track` returns exactly that response (pass-through identity) and
emits no log line. -/
theorem C2_track_pass_through (r : Response) (h : r.raise_for_status = .ok ()) :
    Tracktor.track (.ok r) = (some r, []) := by
  simp [Tracktor.track, ResponseHandler.handler, h]

/-- Witness for C2 at a concrete successful (status 200) response. -/
theorem C2_track_pass_through_witness :
    Tracktor.track (.ok ⟨200, "OK", "http://production.shippingapis.com/ShippingAPI.dll", "<TrackResponse></TrackResponse>"⟩) =
      (some ⟨200, "OK", "http://production.shippingapis.com/ShippingAPI.dll", "<TrackResponse></TrackResponse>"⟩, []) :=
  C2_track_pass_through _ rfl

/-- C10: the single warning line distinguishes the failure kind even though
the return value does not.  An HTTP-status failure (an `HTTPError` raised by
the wrapped call or by `raise_for_status`) logs a line ending in
`- Issue with request`; any other exception logs a line ending in
`- issue in program`; in both cases the returned value is the same `none`. -/
theorem C10_warning_distinguishes_failure_kind (o : Except PyExc Response) :
    ((∃ m, o = .error (.httpError m)) ∨
        (∃ r m, o = .ok r ∧ r.raise_for_status = .error (.httpError m)) →
      ∃ l, Tracktor.track o = (none, [l]) ∧ ∃ p, l = p ++ "- Issue with request") ∧
    ((∃ m, o = .error (.other m)) ∨
        (∃ r m, o = .ok r ∧ r.raise_for_status = .error (.other m)) →
      ∃ l, Tracktor.track o = (none, [l]) ∧ ∃ p, l = p ++ "- issue in program") := by
  constructor
  · rintro (⟨m, rfl⟩ | ⟨r, m, rfl, hr⟩)
    · exact ⟨m ++ " - Issue with request", rfl, m ++ " ", by simp [String.append_assoc]⟩
    · refine ⟨m ++ " - Issue with request", ?_, m ++ " ", by simp [String.append_assoc]⟩
      simp [Tracktor.track, ResponseHandler.handler, hr, warnLine]
  · rintro (⟨m, rfl⟩ | ⟨r, m, rfl, hr⟩)
    · exact ⟨m ++ " - issue in program", rfl, m ++ " ", by simp [String.append_assoc]⟩
    · refine ⟨m ++ " - issue in program", ?_, m ++ " ", by simp [String.append_assoc]⟩
      simp [Tracktor.track, ResponseHandler.handler, hr, warnLine]

/-- Witness for C10, exercising both implications at concrete inputs: an
HTTP-status failure detected by `raise_for_status` on a 500 response, and a
raised non-HTTP exception. -/
theorem C10_warning_distinguishes_failure_kind_witness :
    (∃ l, Tracktor.track (.ok ⟨500, "Internal Server Error", "https://www.ups.com/track/api/Track/GetStatus?loc=en_US", ""⟩) =
        (none, [l]) ∧ ∃ p, l = p ++ "- Issue with request") ∧
    (∃ l, Tracktor.track (.error (.other "TypeError: bad argument")) =
        (none, [l]) ∧ ∃ p, l = p ++ "- issue in program") :=
  ⟨(C10_warning_distinguishes_failure_kind _).1
      (Or.inr ⟨_, "500 Server Error: Internal Server Error for url: https://www.ups.com/track/api/Track/GetStatus?loc=en_US", rfl, rfl⟩),
   (C10_warning_distinguishes_failure_kind _).2 (Or.inl ⟨_, rfl⟩)⟩

/-- Python `dict` updating, `d[k] = v` or `d.update({k: v})`, on the
insertion-ordered association-list model of a dict: overwrite in place when
the key is present, append otherwise. -/
def dictSet {α : Type} (d : List (String × α)) (k : String) (v : α) :
    List (String × α) :=
  if d.any (fun p => p.1 == k) then
    d.map (fun p => if p.1 == k then (k, v) else p)
  else d ++ [(k, v)]

/-- Python `dict` lookup `d.get(k)` on the association-list model. -/
def dictGet {α : Type} (d : List (String × α)) (k : String) : Option α :=
  (d.find? (fun p => p.1 == k)).map Prod.snd

/-- Lower-case hex digit, for CPython's `\xHH` repr escapes. -/
def hexDigitChar (n : Nat) : Char :=
  if n < 10 then Char.ofNat (48 + n) else Char.ofNat (87 + n)

/-- The quote character CPython `repr` picks for a string: a single quote,
unless the string contains a single quote and no double quote. -/
def pyStrQuote (s : String) : Char :=
  if s.contains '\'' ∧ ¬ s.contains '"' then '"' else '\''

/-- CPython `repr` escaping of one character inside a quoted string literal:
backslash and the chosen quote are backslash-escaped, newline, carriage
return and tab become `\n`, `\r`, `\t`, other ASCII control characters and
DEL become `\xHH`, and everything else is emitted as is. -/
def pyReprEscChar (quote : Char) (c : Char) : String :=
  if c = '\\' ∨ c = quote then String.singleton '\\' ++ String.singleton c
  else if c = '\n' then "\\n"
  else if c = '\r' then "\\r"
  else if c = '\t' then "\\t"
  else if c.toNat < 32 ∨ c.toNat = 127 then
    "\\x" ++ String.singleton (hexDigitChar (c.toNat / 16)) ++
      String.singleton (hexDigitChar (c.toNat % 16))
  else String.singleton c

/-- CPython `repr` of a `str` (faithful for ASCII text, which is all this
module ever puts in a request body): the chosen quote around the escaped
characters. -/
def pyStrRepr (s : String) : String :=
  String.singleton (pyStrQuote s) ++
    String.join (s.data.map (pyReprEscChar (pyStrQuote s))) ++
    String.singleton (pyStrQuote s)

/-- The values stored in `UpsTracktor.body`: strings (`Locale`, `Requester`)
and a list of strings (`TrackingNumber`). -/
inductive PyVal where
  | str (s : String)
  | list (l : List String)
deriving DecidableEq

/-- CPython `repr` of such a value; a list prints as `[...]` with `, `
between the reprs of its elements. -/
def PyVal.repr : PyVal → String
  | .str s => pyStrRepr s
  | .list l => "[" ++ String.intercalate ", " (l.map pyStrRepr) ++ "]"

/-- CPython `str` of a dict (as in `str(self.body)` at `src/base.py` 76):
`\x7b'k': v, ...\x7d` in insertion order. -/
def pyDictRepr (d : List (String × PyVal)) : String :=
  "\x7b" ++
    String.intercalate ", "
      (d.map (fun p => pyStrRepr p.1 ++ ": " ++ PyVal.repr p.2)) ++
  "\x7d"

/-- One HTTP request handed to the `requests` library: `requests.post(url=..,
data=.., headers=..)` or `requests.get(url=.., params=..)`. -/
structure HttpRequest where
  method : String
  url : String
  headers : List (String × String)
  data : Option String
  params : Option (List (String × String))
deriving DecidableEq

/-- The mutable state of a `UpsTracktor` instance (`src/base.py` 58-67). -/
structure UpsTracktor where
  url : String
  body : List (String × PyVal)
  headers : List (String × String)
deriving DecidableEq

/-- `UpsTracktor.__init__` (`src/base.py` 58-67): fixed endpoint URL, fixed
base body fields `Locale` and `Requester`, fixed JSON headers. -/
def UpsTracktor.__init__ : UpsTracktor :=
  { url := "https://www.ups.com/track/api/Track/GetStatus?loc=en_US",
    body := [("Locale", .str "en_US"), ("Requester", .str "wt/trackdetails")],
    headers := [("accept", "application/json, text/plain, */*"),
                ("content-type", "application/json")] }

/-- `UpsTracktor._make_request` (`src/base.py` 69-76):
`self.body.update(dict(TrackingNumber=tracking_numbers))`, then one
`requests.post(url=self.url, data=str(self.body), headers=self.headers)`.
The result is the updated instance state together with the list of HTTP
requests issued during the call. -/
def UpsTracktor._make_request (t : UpsTracktor) (tracking_numbers : List String) :
    UpsTracktor × List HttpRequest :=
  let t' : UpsTracktor :=
    { t with body := dictSet t.body "TrackingNumber" (.list tracking_numbers) }
  (t', [{ method := "POST", url := t'.url, headers := t'.headers,
          data := some (pyDictRepr t'.body), params := none }])

/-- The state of a `UpsTracktor` after a sequence of `_make_request` calls. -/
def UpsTracktor.runCalls (t : UpsTracktor) (calls : List (List String)) :
    UpsTracktor :=
  calls.foldl (fun s ns => (UpsTracktor._make_request s ns).1) t

/-- The construction-time body fields of `UpsTracktor`. -/
def upsBaseBody : List (String × PyVal) :=
  [("Locale", .str "en_US"), ("Requester", .str "wt/trackdetails")]

theorem dictSet_upsBaseBody (ns : List String) :
    dictSet upsBaseBody "TrackingNumber" (.list ns) =
      upsBaseBody ++ [("TrackingNumber", .list ns)] := by
  simp [dictSet, upsBaseBody]

theorem dictSet_upsBaseBody_overwrite (ns ns' : List String) :
    dictSet (upsBaseBody ++ [("TrackingNumber", .list ns)]) "TrackingNumber"
        (.list ns') =
      upsBaseBody ++ [("TrackingNumber", .list ns')] := by
  simp [dictSet, upsBaseBody]

/-- Only `body` ever changes on a `UpsTracktor`; after any call sequence the
body is the base body, optionally extended with one `TrackingNumber` entry. -/
theorem ups_runCalls_shape (calls : List (List String)) :
    (UpsTracktor.runCalls UpsTracktor.__init__ calls).url =
        UpsTracktor.__init__.url ∧
      (UpsTracktor.runCalls UpsTracktor.__init__ calls).headers =
        UpsTracktor.__init__.headers ∧
      ((UpsTracktor.runCalls UpsTracktor.__init__ calls).body = upsBaseBody ∨
        ∃ ns, (UpsTracktor.runCalls UpsTracktor.__init__ calls).body =
          upsBaseBody ++ [("TrackingNumber", .list ns)]) := by
  induction calls using List.reverseRecOn with
  | nil => exact ⟨rfl, rfl, Or.inl rfl⟩
  | append_singleton calls ns ih =>
    obtain ⟨hu, hh, hb⟩ := ih
    have hfold : UpsTracktor.runCalls UpsTracktor.__init__ (calls ++ [ns]) =
        (UpsTracktor._make_request
          (UpsTracktor.runCalls UpsTracktor.__init__ calls) ns).1 := by
      simp [UpsTracktor.runCalls]
    rcases hb with hb | ⟨ns₀, hb⟩
    · refine ⟨by simp [hfold, UpsTracktor._make_request, hu],
        by simp [hfold, UpsTracktor._make_request, hh], Or.inr ⟨ns, ?_⟩⟩
      simp [hfold, UpsTracktor._make_request, hb, dictSet_upsBaseBody]
    · refine ⟨by simp [hfold, UpsTracktor._make_request, hu],
        by simp [hfold, UpsTracktor._make_request, hh], Or.inr ⟨ns, ?_⟩⟩
      simp [hfold, UpsTracktor._make_request, hb, dictSet_upsBaseBody_overwrite]

/-- C4: on any reachable `UpsTracktor` state (freshly constructed, after any
number of prior `_make_request` calls), `_make_request` issues exactly one
POST to the fixed UPS URL with the fixed JSON headers, whose body is
`str(self.body)` where the body mapping holds `Locale` = 'en_US',
`Requester` = 'wt/trackdetails' and `TrackingNumber` = the input list, in
that order. -/
theorem C4_ups_make_request_post (calls : List (List String))
    (tracking_numbers : List String) :
    UpsTracktor._make_request
        (UpsTracktor.runCalls UpsTracktor.__init__ calls) tracking_numbers =
      ({ url := "https://www.ups.com/track/api/Track/GetStatus?loc=en_US",
         body := upsBaseBody ++ [("TrackingNumber", .list tracking_numbers)],
         headers := [("accept", "application/json, text/plain, */*"),
                     ("content-type", "application/json")] },
       [{ method := "POST",
          url := "https://www.ups.com/track/api/Track/GetStatus?loc=en_US",
          headers := [("accept", "application/json, text/plain, */*"),
                      ("content-type", "application/json")],
          data := some (pyDictRepr
            (upsBaseBody ++ [("TrackingNumber", .list tracking_numbers)])),
          params := none }]) := by
  obtain ⟨hu, hh, hb⟩ := ups_runCalls_shape calls
  have hu' : (UpsTracktor.runCalls UpsTracktor.__init__ calls).url =
      "https://www.ups.com/track/api/Track/GetStatus?loc=en_US" := hu
  have hh' : (UpsTracktor.runCalls UpsTracktor.__init__ calls).headers =
      [("accept", "application/json, text/plain, */*"),
       ("content-type", "application/json")] := hh
  rcases hb with hb | ⟨ns₀, hb⟩
  · simp [UpsTracktor._make_request, hu', hh', hb, dictSet_upsBaseBody]
  · simp [UpsTracktor._make_request, hu', hh', hb, dictSet_upsBaseBody_overwrite]

/-- An `xml.etree.ElementTree` element as this module builds them: a tag, an
insertion-ordered attribute mapping, a list of children (no text content is
ever produced by `_build_xml`). -/
inductive Element where
  | mk (tag : String) (attrib : List (String × String)) (children : List Element)

/-- `xml.etree.ElementTree._escape_attrib` on one character: `&`, `<`, `>`,
`"` become entity references, carriage return, newline and tab become
character references, everything else is kept.  (CPython applies the
replacements sequentially starting with `&`, which is equivalent to this
per-character map.) -/
def escape_attrib_char (c : Char) : List Char :=
  if c = '&' then ['&', 'a', 'm', 'p', ';']
  else if c = '<' then ['&', 'l', 't', ';']
  else if c = '>' then ['&', 'g', 't', ';']
  else if c = '"' then ['&', 'q', 'u', 'o', 't', ';']
  else if c = '\r' then ['&', '#', '1', '3', ';']
  else if c = '\n' then ['&', '#', '1', '0', ';']
  else if c = '\t' then ['&', '#', '0', '9', ';']
  else [c]

/-- `xml.etree.ElementTree._escape_attrib` on a whole attribute value. -/
def escape_attrib (s : String) : String :=
  ⟨s.data.flatMap escape_attrib_char⟩

mutual
/-- `xml.etree.ElementTree._serialize_xml` with `short_empty_elements=False`
(as passed by `_build_xml` at `src/base.py` 111-112): `<tag` then each
attribute as ` name="escaped value"` in order, then `>`, the serialized
children, and an explicit `</tag>` — never the `<tag/>` shorthand. -/
def Element.serialize : Element → String
  | .mk tag attrib children =>
    "<" ++ tag ++
      String.join (attrib.map (fun kv =>
        " " ++ kv.1 ++ "=\"" ++ escape_attrib kv.2 ++ "\"")) ++
      ">" ++ serializeChildren children ++ "</" ++ tag ++ ">"

/-- Serialization of a list of sibling elements, in order. -/
def serializeChildren : List Element → String
  | [] => ""
  | e :: es => Element.serialize e ++ serializeChildren es
end

/-- The mutable state of a `UspsTracktor` instance (`src/base.py` 85-93):
the configuration set by `__init__` plus the `tracking_numbers` attribute
that `_make_request` stashes on the instance (`none` while unset). -/
structure UspsTracktor where
  user_id : String
  url : String
  params : List (String × String)
  tracking_numbers : Option (List String)
deriving DecidableEq

/-- `UspsTracktor.__init__` (`src/base.py` 85-93): stores the caller-supplied
`user_id` as given (no validation), the fixed endpoint URL, and the fixed
query parameter `API=TrackV2`. -/
def UspsTracktor.__init__ (user_id : String) : UspsTracktor :=
  { user_id := user_id,
    url := "http://production.shippingapis.com/ShippingAPI.dll",
    params := [("API", "TrackV2")],
    tracking_numbers := none }

/-- The XML document `_build_xml` produces for a user id and a list of
tracking numbers: a UTF-8 XML declaration (`ET.ElementTree.write` with
`xml_declaration=True, encoding="UTF-8"` emits it followed by a newline),
then the serialized `TrackRequest` tree built by the `TreeBuilder` calls at
`src/base.py` 100-108: root `TrackRequest` with attribute `USERID`, one
`TrackID` child with attribute `ID` per tracking number, in input order. -/
def uspsXml (user_id : String) (tracking_numbers : List String) : String :=
  "<?xml version='1.0' encoding='UTF-8'?>\n" ++
    Element.serialize (.mk "TrackRequest" [("USERID", user_id)]
      (tracking_numbers.map (fun n => .mk "TrackID" [("ID", n)] [])))

/-- `UspsTracktor._build_xml` (`src/base.py` 95-114): builds the tree from
`self.user_id` and `self.tracking_numbers` and serializes it into
`temp_buffer`.  Reading `self.tracking_numbers` before any `_make_request`
call raises `AttributeError`, modelled as the error case. -/
def UspsTracktor._build_xml (t : UspsTracktor) : Except PyExc String :=
  match t.tracking_numbers with
  | none =>
    .error (.other "'UspsTracktor' object has no attribute 'tracking_numbers'")
  | some tns => .ok (uspsXml t.user_id tns)

/-- `UspsTracktor._make_request` (`src/base.py` 116-124):
`self.tracking_numbers = tracking_numbers`, then
`self.params['XML'] = self._build_xml()`, then one
`requests.get(url=self.url, params=self.params)` (no explicit headers or
body).  Result: updated instance state and the requests issued; an exception
from `_build_xml` would propagate (error case). -/
def UspsTracktor._make_request (t : UspsTracktor) (tracking_numbers : List String) :
    Except PyExc (UspsTracktor × List HttpRequest) :=
  let t1 : UspsTracktor := { t with tracking_numbers := some tracking_numbers }
  match UspsTracktor._build_xml t1 with
  | .error e => .error e
  | .ok xml =>
    let t2 : UspsTracktor := { t1 with params := dictSet t1.params "XML" xml }
    .ok (t2, [{ method := "GET", url := t2.url, headers := [], data := none,
                params := some t2.params }])

/-- `_make_request` on a `UspsTracktor` never raises: computation lemma
giving its result on an arbitrary state. -/
theorem UspsTracktor._make_request_eq (t : UspsTracktor)
    (tracking_numbers : List String) :
    UspsTracktor._make_request t tracking_numbers =
      .ok ({ t with tracking_numbers := some tracking_numbers,
                    params := dictSet t.params "XML"
                      (uspsXml t.user_id tracking_numbers) },
        [{ method := "GET", url := t.url, headers := [], data := none,
           params := some (dictSet t.params "XML"
             (uspsXml t.user_id tracking_numbers)) }]) := by
  simp [UspsTracktor._make_request, UspsTracktor._build_xml]

/-- The state of a `UspsTracktor` after a sequence of `_make_request` calls
(the error branch is unreachable by `UspsTracktor._make_request_eq`). -/
def UspsTracktor.runCalls (t : UspsTracktor) (calls : List (List String)) :
    UspsTracktor :=
  calls.foldl
    (fun s ns =>
      match UspsTracktor._make_request s ns with
      | .ok (s', _) => s'
      | .error _ => s) t

theorem dictSet_uspsParams (x : String) :
    dictSet [("API", "TrackV2")] "XML" x =
      [("API", "TrackV2"), ("XML", x)] := by
  simp [dictSet]

theorem dictSet_uspsParams_overwrite (x x' : String) :
    dictSet [("API", "TrackV2"), ("XML", x)] "XML" x' =
      [("API", "TrackV2"), ("XML", x')] := by
  simp [dictSet]

/-- Only `tracking_numbers` and `params` ever change on a `UspsTracktor`;
after any call sequence `user_id` and `url` are the construction-time values
and `params` is `API=TrackV2`, optionally extended with one `XML` entry. -/
theorem usps_runCalls_shape (user_id : String)
    (calls : List (List String)) :
    (UspsTracktor.runCalls (UspsTracktor.__init__ user_id) calls).user_id =
        user_id ∧
      (UspsTracktor.runCalls (UspsTracktor.__init__ user_id) calls).url =
        "http://production.shippingapis.com/ShippingAPI.dll" ∧
      ((UspsTracktor.runCalls (UspsTracktor.__init__ user_id) calls).params =
          [("API", "TrackV2")] ∨
        ∃ x, (UspsTracktor.runCalls (UspsTracktor.__init__ user_id) calls).params =
          [("API", "TrackV2"), ("XML", x)]) := by
  induction calls using List.reverseRecOn with
  | nil => exact ⟨rfl, rfl, Or.inl rfl⟩
  | append_singleton calls ns ih =>
    obtain ⟨hi, hu, hp⟩ := ih
    have hfold : UspsTracktor.runCalls (UspsTracktor.__init__ user_id) (calls ++ [ns]) =
        match UspsTracktor._make_request
            (UspsTracktor.runCalls (UspsTracktor.__init__ user_id) calls) ns with
        | .ok (s', _) => s'
        | .error _ => UspsTracktor.runCalls (UspsTracktor.__init__ user_id) calls := by
      simp [UspsTracktor.runCalls]
    rw [UspsTracktor._make_request_eq] at hfold
    rcases hp with hp | ⟨x, hp⟩
    · refine ⟨by simp [hfold, hi], by simp [hfold, hu], Or.inr
        ⟨uspsXml (UspsTracktor.runCalls (UspsTracktor.__init__ user_id) calls).user_id ns, ?_⟩⟩
      simp [hfold, hp, dictSet_uspsParams]
    · refine ⟨by simp [hfold, hi], by simp [hfold, hu], Or.inr
        ⟨uspsXml (UspsTracktor.runCalls (UspsTracktor.__init__ user_id) calls).user_id ns, ?_⟩⟩
      simp [hfold, hp, dictSet_uspsParams_overwrite]

/-- C5: on any reachable `UspsTracktor` state, `_make_request` issues exactly
one GET to the fixed USPS URL whose query parameters are exactly the fixed
`API=TrackV2` entry together with an `XML` entry holding the serialized XML
document built from the input. -/
theorem C5_usps_make_request_get (user_id : String) (calls : List (List String))
    (tracking_numbers : List String) :
    UspsTracktor._make_request
        (UspsTracktor.runCalls (UspsTracktor.__init__ user_id) calls)
        tracking_numbers =
      .ok ({ user_id := user_id,
             url := "http://production.shippingapis.com/ShippingAPI.dll",
             params := [("API", "TrackV2"),
                        ("XML", uspsXml user_id tracking_numbers)],
             tracking_numbers := some tracking_numbers },
        [{ method := "GET",
           url := "http://production.shippingapis.com/ShippingAPI.dll",
           headers := [], data := none,
           params := some [("API", "TrackV2"),
                           ("XML", uspsXml user_id tracking_numbers)] }]) := by
  obtain ⟨hi, hu, hp⟩ := usps_runCalls_shape user_id calls
  rw [UspsTracktor._make_request_eq]
  rcases hp with hp | ⟨x, hp⟩
  · simp [hi, hu, hp, dictSet_uspsParams]
  · simp [hi, hu, hp, dictSet_uspsParams_overwrite]

/-- Setting the same key to the same value twice in a Python dict is the same
as setting it once. -/
theorem dictSet_idem {α : Type} (d : List (String × α)) (k : String) (v : α) :
    dictSet (dictSet d k v) k v = dictSet d k v := by
  by_cases h : d.any (fun p => p.1 == k) = true
  · have h1 : dictSet d k v = d.map (fun p => if p.1 == k then (k, v) else p) := by
      simp [dictSet, h]
    rw [h1]
    have hany : (d.map (fun p => if p.1 == k then (k, v) else p)).any
        (fun p => p.1 == k) = true := by
      rw [List.any_eq_true] at h ⊢
      obtain ⟨p, hp, hpk⟩ := h
      exact ⟨(k, v), List.mem_map.mpr ⟨p, hp, by simp [hpk]⟩, by simp⟩
    simp only [dictSet, hany, if_true, List.map_map]
    refine List.map_congr_left ?_
    intro p _
    by_cases hpk : p.1 == k <;> simp [Function.comp, hpk]
  · have h1 : dictSet d k v = d ++ [(k, v)] := by
      simp [dictSet, h]
    rw [h1]
    rw [Bool.not_eq_true] at h
    have hany : (d ++ [(k, v)]).any (fun p => p.1 == k) = true := by
      simp [List.any_append]
    simp only [dictSet, hany, if_true, List.map_append]
    have hmap : ∀ (l : List (String × α)), l.any (fun p => p.1 == k) = false →
        l.map (fun p => if p.1 == k then (k, v) else p) = l := by
      intro l
      induction l with
      | nil => intro _; rfl
      | cons p l ih =>
        intro hl
        simp only [List.any_cons, Bool.or_eq_false_iff, beq_eq_false_iff_ne,
          ne_eq] at hl
        rw [List.map_cons, ih hl.2, if_neg (by simp [hl.1])]
    rw [hmap d h]
    simp

/-- C6: per-instance idempotence of the request builders.  On any
`UpsTracktor` state, two successive `_make_request` calls with the same input
issue identical requests (same POST body string, URL and headers); on any
`UspsTracktor` state, both successive calls succeed and issue identical
requests (same `API` and `XML` query parameters). -/
theorem C6_make_request_idempotent (tu : UpsTracktor) (ts : UspsTracktor)
    (ns : List String) :
    (UpsTracktor._make_request (UpsTracktor._make_request tu ns).1 ns).2 =
        (UpsTracktor._make_request tu ns).2 ∧
      ∃ t1 reqs,
        UspsTracktor._make_request ts ns = .ok (t1, reqs) ∧
          UspsTracktor._make_request t1 ns = .ok (t1, reqs) := by
  constructor
  · simp [UpsTracktor._make_request, dictSet_idem]
  · have h1 := UspsTracktor._make_request_eq ts ns
    have h2 := UspsTracktor._make_request_eq
      { ts with
          tracking_numbers := some ns,
          params := dictSet ts.params "XML" (uspsXml ts.user_id ns) } ns
    refine ⟨_, _, h1, ?_⟩
    rw [h2]
    simp [dictSet_idem]

/-- C7: across any sequence of `_make_request` calls, the fixed configuration
never changes: `UpsTracktor`'s `url`, `headers` and the body's `Locale` and
`Requester` entries keep their construction-time values and only a
`TrackingNumber` entry is ever added or overwritten, and `UspsTracktor`'s
`url`, `user_id` and `API` parameter keep their construction-time values. -/
theorem C7_fixed_configuration_preserved (user_id : String)
    (calls : List (List String)) :
    (UpsTracktor.runCalls UpsTracktor.__init__ calls).url =
        "https://www.ups.com/track/api/Track/GetStatus?loc=en_US" ∧
      (UpsTracktor.runCalls UpsTracktor.__init__ calls).headers =
        [("accept", "application/json, text/plain, */*"),
         ("content-type", "application/json")] ∧
      dictGet (UpsTracktor.runCalls UpsTracktor.__init__ calls).body "Locale" =
        some (.str "en_US") ∧
      dictGet (UpsTracktor.runCalls UpsTracktor.__init__ calls).body "Requester" =
        some (.str "wt/trackdetails") ∧
      ((UpsTracktor.runCalls UpsTracktor.__init__ calls).body = upsBaseBody ∨
        ∃ ns, (UpsTracktor.runCalls UpsTracktor.__init__ calls).body =
          upsBaseBody ++ [("TrackingNumber", PyVal.list ns)]) ∧
      (UspsTracktor.runCalls (UspsTracktor.__init__ user_id) calls).user_id =
        user_id ∧
      (UspsTracktor.runCalls (UspsTracktor.__init__ user_id) calls).url =
        "http://production.shippingapis.com/ShippingAPI.dll" ∧
      dictGet (UspsTracktor.runCalls (UspsTracktor.__init__ user_id) calls).params
          "API" = some "TrackV2" := by
  obtain ⟨hu, hh, hb⟩ := ups_runCalls_shape calls
  obtain ⟨hi, hu2, hp⟩ := usps_runCalls_shape user_id calls
  refine ⟨hu, hh, ?_, ?_, hb, hi, hu2, ?_⟩
  · rcases hb with hb | ⟨ns, hb⟩ <;> simp [dictGet, hb, upsBaseBody]
  · rcases hb with hb | ⟨ns, hb⟩ <;> simp [dictGet, hb, upsBaseBody]
  · rcases hp with hp | ⟨x, hp⟩ <;> simp [dictGet, hp]

/-- C8 counterexample: `UspsTracktor.__init__` performs no validation, so
construction with the empty user identifier succeeds, yields the normally
configured instance with `user_id = ""`, and that instance's `_make_request`
runs normally — refuting the claim that an empty user identifier is not
accepted. -/
theorem C8_empty_user_id_accepted :
    UspsTracktor.__init__ "" =
      { user_id := "",
        url := "http://production.shippingapis.com/ShippingAPI.dll",
        params := [("API", "TrackV2")], tracking_numbers := none } ∧
      ∃ t reqs,
        UspsTracktor._make_request (UspsTracktor.__init__ "")
          ["9400111202555842761005"] = .ok (t, reqs) :=
  ⟨rfl, _, _, UspsTracktor._make_request_eq _ _⟩

/-- C8 as amended: constructing a `UspsTracktor` stores the caller-supplied
user identifier unvalidated (the empty string included) together with the
fixed URL and the fixed `API=TrackV2` parameter. -/
theorem C8_amended_init_stores_user_id (user_id : String) :
    UspsTracktor.__init__ user_id =
      { user_id := user_id,
        url := "http://production.shippingapis.com/ShippingAPI.dll",
        params := [("API", "TrackV2")], tracking_numbers := none } := rfl

/-- A Python class under `ABCMeta` (external collaborator, modelled from the
Python data model): the method names declared `@abstractmethod` in the class
body, the concrete definitions the class body makes, and the inherited
`__abstractmethods__` set. -/
structure PyClass where
  declaredAbstract : List String
  declaredConcrete : List String
  parentAbstract : List String

/-- `__abstractmethods__` as computed by `ABCMeta.__new__`: the methods
declared abstract here plus the inherited abstract methods not overridden by
a concrete definition. -/
def PyClass.abstractMethods (c : PyClass) : List String :=
  c.declaredAbstract ++
    c.parentAbstract.filter (fun m =>
      !(c.declaredConcrete.contains m || c.declaredAbstract.contains m))

/-- `ABCMeta` raises `TypeError` on instantiating any class whose
`__abstractmethods__` set is non-empty. -/
def PyClass.instantiable (c : PyClass) : Bool :=
  c.abstractMethods.isEmpty

/-- `class Tracktor(metaclass=ABCMeta)` (`src/base.py` 31-51): declares
`_make_request` with `@abstractmethod` and the concrete `track`. -/
def TracktorClass : PyClass :=
  { declaredAbstract := ["_make_request"], declaredConcrete := ["track"],
    parentAbstract := [] }

/-- `class UpsTracktor(Tracktor)` (`src/base.py` 54-76): concrete `__init__`
and `_make_request`. -/
def UpsTracktorClass : PyClass :=
  { declaredAbstract := [], declaredConcrete := ["__init__", "_make_request"],
    parentAbstract := TracktorClass.abstractMethods }

/-- `class UspsTracktor(Tracktor)` (`src/base.py` 79-124): concrete
`__init__`, `_build_xml` and `_make_request`. -/
def UspsTracktorClass : PyClass :=
  { declaredAbstract := [],
    declaredConcrete := ["__init__", "_build_xml", "_make_request"],
    parentAbstract := TracktorClass.abstractMethods }

/-- C9: instantiating the abstract base `Tracktor` directly fails (its
`__abstractmethods__` set still holds `_make_request`), while the concrete
variants `UpsTracktor` and `UspsTracktor`, which override it, are
constructible. -/
theorem C9_abstract_base_not_instantiable :
    TracktorClass.instantiable = false ∧
      UpsTracktorClass.instantiable = true ∧
      UspsTracktorClass.instantiable = true := by
  decide

/-!
An executable XML reader, independent of the serializer, used to state and
prove C3: it accepts exactly the documents consisting of an optional
`<?...?>` declaration followed by one root element, where every element is
written `<tag attr="value"...>children</tag>` with explicit open and close
tags (the `<tag/>` shorthand is not part of the grammar), attribute values
are double-quoted with the standard entity and character references, and no
text content occurs.  A successful parse of the full input therefore
certifies well-formedness of this shape, and the returned tree recovers the
logical content (attribute values unescaped).
-/

/-- Read one entity or character reference (after a `&`). -/
def parseEntityRef : List Char → Option (Char × List Char)
  | 'a' :: 'm' :: 'p' :: ';' :: rest => some ('&', rest)
  | 'l' :: 't' :: ';' :: rest => some ('<', rest)
  | 'g' :: 't' :: ';' :: rest => some ('>', rest)
  | 'q' :: 'u' :: 'o' :: 't' :: ';' :: rest => some ('"', rest)
  | '#' :: '1' :: '3' :: ';' :: rest => some ('\r', rest)
  | '#' :: '1' :: '0' :: ';' :: rest => some ('\n', rest)
  | '#' :: '0' :: '9' :: ';' :: rest => some ('\t', rest)
  | _ => none

/-- Read an attribute value up to (and past) the closing double quote,
resolving references.  The fuel bounds the number of value characters; any
value above that count behaves identically. -/
def parseAttrVal : Nat → List Char → Option (List Char × List Char)
  | 0, _ => none
  | _ + 1, [] => none
  | fuel + 1, c :: rest =>
    if c = '"' then some ([], rest)
    else if c = '&' then
      match parseEntityRef rest with
      | none => none
      | some (e, rest₂) =>
        match parseAttrVal fuel rest₂ with
        | none => none
        | some (v, rest₃) => some (e :: v, rest₃)
    else
      match parseAttrVal fuel rest with
      | none => none
      | some (v, rest₃) => some (c :: v, rest₃)

/-- Characters allowed in the tag and attribute names this reader accepts. -/
def isNameChar (c : Char) : Bool :=
  c.isAlphanum || c = '_' || c = '-' || c = '.' || c = ':'

/-- Read the longest prefix of name characters. -/
def parseName : List Char → List Char × List Char
  | [] => ([], [])
  | c :: rest =>
    if isNameChar c then (c :: (parseName rest).1, (parseName rest).2)
    else ([], c :: rest)

/-- Read attributes ` name="value"` up to (and past) the `>` that closes the
open tag.  The fuel bounds the number of attributes; any value above that
count behaves identically. -/
def parseAttrs : Nat → List Char → Option (List (String × String) × List Char)
  | 0, _ => none
  | _ + 1, [] => none
  | fuel + 1, c :: rest =>
    if c = '>' then some ([], rest)
    else if c = ' ' then
      match parseName rest with
      | ([], _) => none
      | (nm, r1) =>
        match r1 with
        | '=' :: '"' :: r2 =>
          match parseAttrVal fuel r2 with
          | none => none
          | some (v, r3) =>
            match parseAttrs fuel r3 with
            | none => none
            | some (attrs, r4) => some ((⟨nm⟩, ⟨v⟩) :: attrs, r4)
        | _ => none
    else none

mutual
/-- Read one element `<tag attrs>children</tag>`.  The fuel bounds the
nesting depth; any value above the document's depth behaves identically. -/
def parseElem : Nat → List Char → Option (Element × List Char)
  | 0, _ => none
  | fuel + 1, l =>
    match l with
    | '<' :: r0 =>
      match parseName r0 with
      | ([], _) => none
      | (tag, r1) =>
        match parseAttrs fuel r1 with
        | none => none
        | some (attrs, r2) =>
          match parseChildren fuel r2 with
          | none => none
          | some (cs, r3) =>
            match r3 with
            | '<' :: '/' :: r4 =>
              match parseName r4 with
              | (tag2, '>' :: r5) =>
                if tag2 = tag then some (.mk ⟨tag⟩ attrs cs, r5) else none
              | _ => none
            | _ => none
    | _ => none

/-- Read sibling elements until the `</` of the enclosing close tag. -/
def parseChildren : Nat → List Char → Option (List Element × List Char)
  | 0, _ => none
  | _ + 1, '<' :: '/' :: r => some ([], '<' :: '/' :: r)
  | fuel + 1, l =>
    match parseElem fuel l with
    | none => none
    | some (e, r1) =>
      match parseChildren fuel r1 with
      | none => none
      | some (es, r2) => some (e :: es, r2)
end

/-- Collect the text of a `<?...?>` declaration: the characters up to the
closing `?>`, and the remaining input. -/
def declBody : List Char → Option (List Char × List Char)
  | [] => none
  | '?' :: '>' :: r => some ([], r)
  | c :: r =>
    match declBody r with
    | none => none
    | some (d, rest) => some (c :: d, rest)

/-- Skip XML whitespace. -/
def skipWS : List Char → List Char
  | [] => []
  | c :: r =>
    if c = ' ' ∨ c = '\n' ∨ c = '\r' ∨ c = '\t' then skipWS r
    else c :: r

/-- Parse a whole document: an optional declaration (returned verbatim),
optional whitespace, one root element, end of input. -/
def parseXmlDoc (s : String) : Option (Option String × Element) :=
  match s.data with
  | '<' :: '?' :: r =>
    match declBody r with
    | none => none
    | some (d, rest) =>
      match parseElem (s.length + 3) (skipWS rest) with
      | some (e, []) => some (some ⟨'<' :: '?' :: (d ++ ['?', '>'])⟩, e)
      | _ => none
  | l =>
    match parseElem (s.length + 3) l with
    | some (e, []) => some (none, e)
    | _ => none

theorem escape_attrib_char_length (c : Char) :
    1 ≤ (escape_attrib_char c).length := by
  unfold escape_attrib_char
  split
  · simp
  split
  · simp
  split
  · simp
  split
  · simp
  split
  · simp
  split
  · simp
  split <;> simp

theorem length_le_flatMap_escape (l : List Char) :
    l.length ≤ (l.flatMap escape_attrib_char).length := by
  induction l with
  | nil => simp
  | cons c l ih =>
    simp only [List.flatMap_cons, List.length_append, List.length_cons]
    have := escape_attrib_char_length c
    omega

/-- Reading back an escaped attribute value recovers the original character
list and stops right after the closing quote. -/
theorem parseAttrVal_escape (s : List Char) : ∀ (fuel : Nat),
    s.length + 1 ≤ fuel → ∀ (rest : List Char),
    parseAttrVal fuel (s.flatMap escape_attrib_char ++ '"' :: rest) =
      some (s, rest) := by
  induction s with
  | nil =>
    intro fuel hf rest
    obtain ⟨g, rfl⟩ : ∃ g, fuel = g + 1 := ⟨fuel - 1, by omega⟩
    simp [parseAttrVal]
  | cons c s ih =>
    intro fuel hf rest
    obtain ⟨g, rfl⟩ : ∃ g, fuel = g + 1 := ⟨fuel - 1, by omega⟩
    have hg : s.length + 1 ≤ g := by
      simp only [List.length_cons] at hf
      omega
    rw [List.flatMap_cons, List.append_assoc]
    by_cases h1 : c = '&'
    · subst h1
      have he : parseEntityRef ('a' :: 'm' :: 'p' :: ';' ::
          (s.flatMap escape_attrib_char ++ '"' :: rest)) =
        some ('&', s.flatMap escape_attrib_char ++ '"' :: rest) := rfl
      simp [escape_attrib_char, parseAttrVal, he, ih g hg rest]
    · by_cases h2 : c = '<'
      · subst h2
        have he : parseEntityRef ('l' :: 't' :: ';' ::
            (s.flatMap escape_attrib_char ++ '"' :: rest)) =
          some ('<', s.flatMap escape_attrib_char ++ '"' :: rest) := rfl
        simp [escape_attrib_char, parseAttrVal, he, ih g hg rest]
      · by_cases h3 : c = '>'
        · subst h3
          have he : parseEntityRef ('g' :: 't' :: ';' ::
              (s.flatMap escape_attrib_char ++ '"' :: rest)) =
            some ('>', s.flatMap escape_attrib_char ++ '"' :: rest) := rfl
          simp [escape_attrib_char, parseAttrVal, he, ih g hg rest]
        · by_cases h4 : c = '"'
          · subst h4
            have he : parseEntityRef ('q' :: 'u' :: 'o' :: 't' :: ';' ::
                (s.flatMap escape_attrib_char ++ '"' :: rest)) =
              some ('"', s.flatMap escape_attrib_char ++ '"' :: rest) := rfl
            simp [escape_attrib_char, parseAttrVal, he, ih g hg rest]
          · by_cases h5 : c = '\r'
            · subst h5
              have he : parseEntityRef ('#' :: '1' :: '3' :: ';' ::
                  (s.flatMap escape_attrib_char ++ '"' :: rest)) =
                some ('\r', s.flatMap escape_attrib_char ++ '"' :: rest) := rfl
              simp [escape_attrib_char, parseAttrVal, he, ih g hg rest]
            · by_cases h6 : c = '\n'
              · subst h6
                have he : parseEntityRef ('#' :: '1' :: '0' :: ';' ::
                    (s.flatMap escape_attrib_char ++ '"' :: rest)) =
                  some ('\n', s.flatMap escape_attrib_char ++ '"' :: rest) := rfl
                simp [escape_attrib_char, parseAttrVal, he, ih g hg rest]
              · by_cases h7 : c = '\t'
                · subst h7
                  have he : parseEntityRef ('#' :: '0' :: '9' :: ';' ::
                      (s.flatMap escape_attrib_char ++ '"' :: rest)) =
                    some ('\t', s.flatMap escape_attrib_char ++ '"' :: rest) := rfl
                  simp [escape_attrib_char, parseAttrVal, he, ih g hg rest]
                · simp [escape_attrib_char, h1, h2, h3, h4, h5, h6, h7,
                    parseAttrVal, ih g hg rest]

/-- The character stream of one serialized `TrackID` element, written in the
form the reader consumes, with an explicit continuation `k`. -/
def trackIdChars (n : String) (k : List Char) : List Char :=
  '<' :: 'T' :: 'r' :: 'a' :: 'c' :: 'k' :: 'I' :: 'D' :: ' ' :: 'I' :: 'D' :: '=' :: '"' ::
    (n.data.flatMap escape_attrib_char ++ '"' :: '>' ::
      '<' :: '/' :: 'T' :: 'r' :: 'a' :: 'c' :: 'k' :: 'I' :: 'D' :: '>' :: k)

/-- The character stream of a list of serialized `TrackID` elements, with an
explicit continuation `k`. -/
def leavesChars (ns : List String) (k : List Char) : List Char :=
  ns.foldr (fun n acc => trackIdChars n acc) k

theorem leavesChars_nil (k : List Char) : leavesChars [] k = k := rfl

theorem leavesChars_cons (n : String) (ns : List String) (k : List Char) :
    leavesChars (n :: ns) k = trackIdChars n (leavesChars ns k) := rfl

/-- Reading the attribute segment ` ID="..."` (as serialized for a
`TrackID`) recovers the attribute with its unescaped value. -/
theorem parseAttrs_ID (v : String) (k : List Char) : ∀ fuel,
    v.data.length + 2 ≤ fuel →
    parseAttrs fuel (' ' :: 'I' :: 'D' :: '=' :: '"' ::
        (v.data.flatMap escape_attrib_char ++ '"' :: '>' :: k)) =
      some ([("ID", v)], k) := by
  intro fuel hf
  obtain ⟨g, rfl⟩ : ∃ g, fuel = g + 1 + 1 := ⟨fuel - 2, by omega⟩
  have hval := parseAttrVal_escape v.data (g + 1) (by omega) ('>' :: k)
  have hclose : parseAttrs (g + 1) ('>' :: k) = some ([], k) := by
    simp [parseAttrs]
  have hID : (⟨['I', 'D']⟩ : String) = "ID" := rfl
  have hv : (⟨v.data⟩ : String) = v := rfl
  simp [parseAttrs, parseName, isNameChar, hval, hclose, hID, hv]

/-- Reading the attribute segment ` USERID="..."` (as serialized for the
`TrackRequest` root) recovers the attribute with its unescaped value. -/
theorem parseAttrs_USERID (v : String) (k : List Char) : ∀ fuel,
    v.data.length + 2 ≤ fuel →
    parseAttrs fuel (' ' :: 'U' :: 'S' :: 'E' :: 'R' :: 'I' :: 'D' :: '=' :: '"' ::
        (v.data.flatMap escape_attrib_char ++ '"' :: '>' :: k)) =
      some ([("USERID", v)], k) := by
  intro fuel hf
  obtain ⟨g, rfl⟩ : ∃ g, fuel = g + 1 + 1 := ⟨fuel - 2, by omega⟩
  have hval := parseAttrVal_escape v.data (g + 1) (by omega) ('>' :: k)
  have hclose : parseAttrs (g + 1) ('>' :: k) = some ([], k) := by
    simp [parseAttrs]
  have hUID : (⟨['U', 'S', 'E', 'R', 'I', 'D']⟩ : String) = "USERID" := rfl
  have hv : (⟨v.data⟩ : String) = v := rfl
  simp [parseAttrs, parseName, isNameChar, hval, hclose, hUID, hv]

/-- Reading one serialized `TrackID` element recovers the leaf element with
its unescaped `ID` attribute. -/
theorem parseElem_trackID (n : String) (k : List Char) : ∀ fuel,
    n.data.length + 3 ≤ fuel →
    parseElem fuel ('<' :: 'T' :: 'r' :: 'a' :: 'c' :: 'k' :: 'I' :: 'D' :: ' ' :: 'I' :: 'D' :: '=' :: '"' ::
        (n.data.flatMap escape_attrib_char ++ '"' :: '>' ::
          '<' :: '/' :: 'T' :: 'r' :: 'a' :: 'c' :: 'k' :: 'I' :: 'D' :: '>' :: k)) =
      some (.mk "TrackID" [("ID", n)] [], k) := by
  intro fuel hf
  obtain ⟨g, rfl⟩ : ∃ g, fuel = g + 1 := ⟨fuel - 1, by omega⟩
  have hattrs := parseAttrs_ID n
    ('<' :: '/' :: 'T' :: 'r' :: 'a' :: 'c' :: 'k' :: 'I' :: 'D' :: '>' :: k) g (by omega)
  have hkids : parseChildren g
      ('<' :: '/' :: 'T' :: 'r' :: 'a' :: 'c' :: 'k' :: 'I' :: 'D' :: '>' :: k) =
      some ([], '<' :: '/' :: 'T' :: 'r' :: 'a' :: 'c' :: 'k' :: 'I' :: 'D' :: '>' :: k) := by
    obtain ⟨g', rfl⟩ : ∃ g', g = g' + 1 := ⟨g - 1, by omega⟩
    simp [parseChildren]
  have hTID : (⟨['T', 'r', 'a', 'c', 'k', 'I', 'D']⟩ : String) = "TrackID" := rfl
  simp [parseElem, parseName, isNameChar, hattrs, hkids, hTID]

/-- Reading a sequence of serialized `TrackID` elements up to the enclosing
close tag recovers each leaf, in order. -/
theorem parseChildren_leaves (ns : List String) : ∀ (rest : List Char) (fuel : Nat),
    (ns.map (fun n => n.data.length + 4)).sum + 1 ≤ fuel →
    parseChildren fuel (leavesChars ns ('<' :: '/' :: rest)) =
      some (ns.map (fun n => .mk "TrackID" [("ID", n)] []), '<' :: '/' :: rest) := by
  induction ns with
  | nil =>
    intro rest fuel hf
    obtain ⟨g, rfl⟩ : ∃ g, fuel = g + 1 := ⟨fuel - 1, by omega⟩
    simp [leavesChars_nil, parseChildren]
  | cons n ns ih =>
    intro rest fuel hf
    obtain ⟨g, rfl⟩ : ∃ g, fuel = g + 1 := ⟨fuel - 1, by omega⟩
    simp only [List.map_cons, List.sum_cons] at hf
    have hleaf := parseElem_trackID n (leavesChars ns ('<' :: '/' :: rest)) g (by omega)
    have hrest := ih rest g (by omega)
    rw [leavesChars_cons, trackIdChars]
    simp [parseChildren, hleaf, hrest]

/-- Reading the serialized `TrackRequest` document body recovers the root
element, its unescaped `USERID` attribute and all `TrackID` children in
order. -/
theorem parseElem_trackRequest (uid : String) (ns : List String) (k : List Char) :
    ∀ fuel, uid.data.length + ((ns.map (fun n => n.data.length + 4)).sum + 3) ≤ fuel →
    parseElem fuel ('<' :: 'T' :: 'r' :: 'a' :: 'c' :: 'k' :: 'R' :: 'e' :: 'q' :: 'u' :: 'e' :: 's' :: 't' :: ' ' :: 'U' :: 'S' :: 'E' :: 'R' :: 'I' :: 'D' :: '=' :: '"' ::
        (uid.data.flatMap escape_attrib_char ++ '"' :: '>' ::
          leavesChars ns ('<' :: '/' :: 'T' :: 'r' :: 'a' :: 'c' :: 'k' :: 'R' :: 'e' :: 'q' :: 'u' :: 'e' :: 's' :: 't' :: '>' :: k))) =
      some (.mk "TrackRequest" [("USERID", uid)]
        (ns.map fun n => .mk "TrackID" [("ID", n)] []), k) := by
  intro fuel hf
  obtain ⟨g, rfl⟩ : ∃ g, fuel = g + 1 := ⟨fuel - 1, by omega⟩
  have hattrs := parseAttrs_USERID uid
    (leavesChars ns ('<' :: '/' :: 'T' :: 'r' :: 'a' :: 'c' :: 'k' :: 'R' :: 'e' :: 'q' :: 'u' :: 'e' :: 's' :: 't' :: '>' :: k)) g (by omega)
  have hkids := parseChildren_leaves ns
    ('T' :: 'r' :: 'a' :: 'c' :: 'k' :: 'R' :: 'e' :: 'q' :: 'u' :: 'e' :: 's' :: 't' :: '>' :: k) g (by omega)
  have hTR : (⟨['T', 'r', 'a', 'c', 'k', 'R', 'e', 'q', 'u', 'e', 's', 't']⟩ : String) = "TrackRequest" := rfl
  simp [parseElem, parseName, isNameChar, hattrs, hkids, hTR]

/-- The serialized children of the `TrackRequest` tree are exactly the
`TrackID` character streams, in order. -/
theorem serializeChildren_data (ns : List String) (k : List Char) :
    (serializeChildren (ns.map fun n => Element.mk "TrackID" [("ID", n)] [])).data ++ k =
      leavesChars ns k := by
  induction ns with
  | nil => simp [serializeChildren, leavesChars_nil]
  | cons n ns ih =>
    rw [List.map_cons, serializeChildren, leavesChars_cons, ← ih, trackIdChars]
    simp [Element.serialize, serializeChildren, escape_attrib, String.data_append]

/-- The document `_build_xml` serializes, as a character stream: declaration,
newline, root open tag with the escaped `USERID`, the `TrackID` streams, root
close tag. -/
theorem uspsXml_data (uid : String) (ns : List String) :
    (uspsXml uid ns).data =
      "<?xml version='1.0' encoding='UTF-8'?>\n<TrackRequest USERID=\"".data ++
        (uid.data.flatMap escape_attrib_char ++ '"' :: '>' ::
          leavesChars ns ('<' :: '/' :: 'T' :: 'r' :: 'a' :: 'c' :: 'k' :: 'R' :: 'e' :: 'q' :: 'u' :: 'e' :: 's' :: 't' :: '>' :: [])) := by
  have hc := serializeChildren_data ns
    ('<' :: '/' :: 'T' :: 'r' :: 'a' :: 'c' :: 'k' :: 'R' :: 'e' :: 'q' :: 'u' :: 'e' :: 's' :: 't' :: '>' :: [])
  rw [uspsXml]
  simp [Element.serialize, escape_attrib, String.data_append, ← hc]

theorem leavesChars_length (ns : List String) (k : List Char) :
    (leavesChars ns k).length =
      (ns.map fun n => (n.data.flatMap escape_attrib_char).length + 25).sum +
        k.length := by
  induction ns with
  | nil => simp [leavesChars_nil]
  | cons n ns ih =>
    rw [leavesChars_cons, trackIdChars]
    simp only [List.length_cons, List.length_append, List.map_cons,
      List.sum_cons, ih]
    omega

/-- The document `_build_xml` produces is accepted in full by the XML reader:
it carries exactly the UTF-8 XML declaration, and its single root element is
`TrackRequest` with `USERID` equal to the configured identifier and one
`TrackID` child per input, in order, with `ID` equal to the input string. -/
theorem parseXmlDoc_uspsXml (uid : String) (ns : List String) :
    parseXmlDoc (uspsXml uid ns) =
      some (some "<?xml version='1.0' encoding='UTF-8'?>",
        .mk "TrackRequest" [("USERID", uid)]
          (ns.map fun n => .mk "TrackID" [("ID", n)] [])) := by
  have hsum : (ns.map fun n => n.data.length + 4).sum ≤
      (ns.map fun n => (n.data.flatMap escape_attrib_char).length + 25).sum :=
    List.sum_le_sum (fun n _ => by
      have := length_le_flatMap_escape n.data
      omega)
  have huid := length_le_flatMap_escape uid.data
  have hlen : uid.data.length +
      ((ns.map (fun n => n.data.length + 4)).sum + 3) ≤
      (uspsXml uid ns).length + 3 := by
    have hL : (uspsXml uid ns).length = (uspsXml uid ns).data.length := rfl
    rw [hL, uspsXml_data]
    simp only [List.length_append, List.length_cons, List.length_nil,
      leavesChars_length]
    omega
  have hroot := parseElem_trackRequest uid ns [] ((uspsXml uid ns).length + 3) hlen
  simp only [parseXmlDoc]
  rw [uspsXml_data]
  simp [declBody, skipWS, hroot]

/-- C3: for every configured user identifier and every list of tracking
numbers (the empty list included), `_build_xml` succeeds and its output is a
well-formed document (the independent XML reader accepts it in full, which
also certifies explicit open/close tags — the `<tag/>` shorthand is not in
the reader's grammar): a UTF-8 XML declaration, a single root `TrackRequest`
whose `USERID` attribute equals the configured identifier, and exactly one
`TrackID` child per input in input order with `ID` equal to the
corresponding input string. -/
theorem C3_build_xml_wellformed (user_id : String) (tracking_numbers : List String)
    (t : UspsTracktor) (h1 : t.user_id = user_id)
    (h2 : t.tracking_numbers = some tracking_numbers) :
    ∃ xml, UspsTracktor._build_xml t = .ok xml ∧
      parseXmlDoc xml =
        some (some "<?xml version='1.0' encoding='UTF-8'?>",
          .mk "TrackRequest" [("USERID", user_id)]
            (tracking_numbers.map fun n => .mk "TrackID" [("ID", n)] [])) := by
  refine ⟨uspsXml user_id tracking_numbers, ?_,
    parseXmlDoc_uspsXml user_id tracking_numbers⟩
  simp [UspsTracktor._build_xml, h2, h1]

/-- Witness for C3 at the spec's concrete scenario: user id `123USERID`,
one tracking number. -/
theorem C3_build_xml_wellformed_witness :
    ∃ xml, UspsTracktor._build_xml
        { user_id := "123USERID",
          url := "http://production.shippingapis.com/ShippingAPI.dll",
          params := [("API", "TrackV2")],
          tracking_numbers := some ["9400111202555842761005"] } = .ok xml ∧
      parseXmlDoc xml =
        some (some "<?xml version='1.0' encoding='UTF-8'?>",
          .mk "TrackRequest" [("USERID", "123USERID")]
            ((["9400111202555842761005"] : List String).map
              fun n => .mk "TrackID" [("ID", n)] [])) :=
  C3_build_xml_wellformed "123USERID" ["9400111202555842761005"] _ rfl rfl
